import Mathlib

/-!
Verification of the WAL manager and the full-text index reader cache of the
infinity storage engine, as a shallow embedding of the source into Lean.

Timestamps, transaction ids and byte values are modelled as Nat (the source
uses unsigned 64-bit integers; none of the verified paths performs wrapping
arithmetic on them). Fallible code returns Except. Stateful code is explicit
state passing.
-/

set_option autoImplicit false

namespace Infinity

/-- Sentinel timestamp UNCOMMIT_TS, the maximal u64 value
(std numeric limits max of TxnTimeStamp). -/
def UNCOMMIT_TS : Nat := 2 ^ 64 - 1

/-! ## WAL data model (wal_manager.cpp and the WAL command taxonomy) -/

/-- Outline info of one block column: (next_index, last_offset). -/
structure BlockInfo where
  row_count : Nat
  row_capacity : Nat
  outline_infos : List (Nat × Nat)
deriving DecidableEq

/-- WalSegmentInfo recorded in Import and Compact commands. -/
structure WalSegmentInfo where
  segment_id : Nat
  column_count : Nat
  row_count : Nat
  actual_row_count : Nat
  row_capacity : Nat
  block_infos : List BlockInfo
deriving DecidableEq

/-- WAL command taxonomy. Payload details that no verified claim touches are kept
as the identifying strings only. -/
inductive WalCmd where
  | createDatabase (db_name : String) (db_dir_tail : String)
  | dropDatabase (db_name : String)
  | createTable (db_name : String) (table_dir_tail : String)
  | dropTable (db_name : String) (table_name : String)
  | createIndex (db_name : String) (table_name : String) (index_dir_tail : String)
  | dropIndex (db_name : String) (table_name : String) (index_name : String)
  | importSegment (db_name : String) (table_name : String) (segment_info : WalSegmentInfo)
  | append (db_name : String) (table_name : String)
  | deleteRows (db_name : String) (table_name : String) (row_ids : List Nat)
  | compact (db_name : String) (table_name : String)
      (new_segment_infos : List WalSegmentInfo) (deprecated_segment_ids : List Nat)
  | checkpoint (max_commit_ts : Nat) (is_full : Bool) (catalog_path : String)
deriving DecidableEq

/-- A WalEntry as handled by WalManager::Flush. The serialization routines
WalEntry::GetSizeInBytes and WalEntry::WriteAdv are defined outside the studied
sources and the flush loop treats them as black boxes, so their outputs are
carried as data of the entry: size_in_bytes is the pre-computed size returned
by GetSizeInBytes, serialized is the byte vector produced by WriteAdv. -/
structure WalEntry where
  txn_id : Nat
  commit_ts : Nat
  cmds : List WalCmd
  size_in_bytes : Nat
  serialized : List Nat
deriving DecidableEq

/-- Error channel: UnrecoverableError and RecoverableError sites of the
studied code. -/
inductive WalError where
  | emptyCmds (txn_id : Nat)
  | sizeMismatch (exp_size : Nat) (act_size : Nat)
  | noCheckpointFound
  | catalogParseFailed
  | commitTsBelowMax
  | lastCkpTsNotLess (last : Nat) (cur : Nat)
  | lastFullCkpTsNotLess (last : Nat) (cur : Nat)
  | checkpointFailed
  | replayNotCompactable (segment_id : Nat)
  | recoverable
deriving DecidableEq

/-! ## The WAL flush loop (WalManager::Flush, wal_manager.cpp lines 146-238) -/

/-- The flush options of the configuration. -/
inductive FlushOption where
  | kFlushAtOnce
  | kOnlyWrite
  | kFlushPerSecond
deriving DecidableEq

/-- The per-loop state the flush thread mutates: bytes of the active wal.log
file, max_commit_ts and wal_size counters. -/
structure FlushState where
  file : List Nat
  max_commit_ts : Nat
  wal_size : Nat
deriving DecidableEq

/-- Observable events of one round of the flush main loop. -/
inductive FlushEvent where
  | write (txn_id : Nat)
  | sync
  | commitBottom (txn_id : Nat)
deriving DecidableEq

/-- Processing of a single non-null entry inside the write loop of
WalManager::Flush (lines 164-181): reject an entry with no commands, serialize,
verify the pre-computed size against the actual serialized size, raise an
unrecoverable error on mismatch, otherwise append the bytes to the active log
file and update max_commit_ts and wal_size. -/
def writeWalEntry (st : FlushState) (entry : WalEntry) : Except WalError FlushState :=
  if entry.cmds.isEmpty then
    Except.error (WalError.emptyCmds entry.txn_id)
  else
    let exp_size := entry.size_in_bytes
    let buf := entry.serialized
    let act_size := buf.length
    if exp_size ≠ act_size then
      Except.error (WalError.sizeMismatch exp_size act_size)
    else
      Except.ok { file := st.file ++ buf, max_commit_ts := entry.commit_ts,
                  wal_size := st.wal_size + act_size }

/-- The write loop over a dequeued batch (lines 157-181). A null entry is the
termination sentinel: it sets running to false and breaks out, leaving later
entries unwritten. Returns the new state, the write events in order, and the
running flag. -/
def writeLoop : FlushState → List (Option WalEntry) → Except WalError (FlushState × List FlushEvent × Bool)
  | st, [] => Except.ok (st, [], true)
  | st, none :: _ => Except.ok (st, [], false)
  | st, some entry :: rest =>
    match writeWalEntry st entry with
    | Except.error e => Except.error e
    | Except.ok st1 =>
      match writeLoop st1 rest with
      | Except.error e => Except.error e
      | Except.ok (st2, evs, running) =>
        Except.ok (st2, FlushEvent.write entry.txn_id :: evs, running)

/-- The flush switch on the configured policy (lines 187-200). In the source
every branch calls ofs_.flush(); the kOnlyWrite and kFlushPerSecond branches
carry FIXME comments saying they should not. -/
def policyFlushEvents : FlushOption → List FlushEvent
  | FlushOption.kFlushAtOnce => [FlushEvent.sync]
  | FlushOption.kOnlyWrite => [FlushEvent.sync]
  | FlushOption.kFlushPerSecond => [FlushEvent.sync]

/-- The sequential commit loop (lines 202-209): for each entry of the batch,
look the transaction up in the transaction manager and, when found, run its
CommitBottom. has_txn models which transaction ids GetTxn still resolves. -/
def commitLoop (has_txn : Nat → Bool) : List (Option WalEntry) → List FlushEvent
  | [] => []
  | none :: rest => commitLoop has_txn rest
  | some entry :: rest =>
    if has_txn entry.txn_id then
      FlushEvent.commitBottom entry.txn_id :: commitLoop has_txn rest
    else
      commitLoop has_txn rest

/-- One round of the flush main loop on a dequeued batch: write every entry,
then flush per policy, then run the commit loop; an empty batch is skipped, and
after a termination sentinel neither the flush nor the commit loop runs. -/
def flushBatch (has_txn : Nat → Bool) (flush_option : FlushOption) (st : FlushState)
    (log_batch : List (Option WalEntry)) : Except WalError (FlushState × List FlushEvent × Bool) :=
  if log_batch.isEmpty then
    Except.ok (st, [], true)
  else
    match writeLoop st log_batch with
    | Except.error e => Except.error e
    | Except.ok (st1, write_events, running) =>
      if running then
        Except.ok (st1, write_events ++ policyFlushEvents flush_option ++ commitLoop has_txn log_batch, true)
      else
        Except.ok (st1, write_events, false)

/-- WalManager::PutEntry (lines 122-130): when the manager is not running the
entry is dropped without enqueueing and without any error; otherwise it is
enqueued. The queue holds (entry, txn id) pairs; the return type is the only
channel the caller observes, and the source returns void unconditionally. -/
def PutEntry (running : Bool) (queue : List (WalEntry × Nat)) (entry : WalEntry) (txn : Nat) :
    Except WalError (List (WalEntry × Nat)) :=
  if !running then
    Except.ok queue
  else
    Except.ok (queue ++ [(entry, txn)])

/-! ## WAL recovery (WalManager::ReplayWalFile, lines 388-499) -/

/-- Modelled from the spec: WalEntry::IsCheckPoint (wal_entry.cpp is outside the
studied sources). The spec scans entries "until the first Checkpoint command is
found" and records max_commit_ts and catalog_path from it; accordingly this
yields the first checkpoint command of the entry, if any. -/
def WalEntry.isCheckPoint (entry : WalEntry) : Option (Nat × String) :=
  entry.cmds.findSome? (fun c =>
    match c with
    | WalCmd.checkpoint max_commit_ts _ catalog_path => some (max_commit_ts, catalog_path)
    | _ => none)

/-- Phase 1 of ReplayWalFile (lines 427-443): iterate entries newest-to-oldest,
collecting entries into replay_entries until the first entry holding a
checkpoint command; on success also record (max_commit_ts, catalog_path) of the
checkpoint command and the commit_ts of its entry, and return the unread rest
of the stream. -/
def replayPhase1 : List WalEntry → List WalEntry × Option (Nat × String × Nat) × List WalEntry
  | [] => ([], none, [])
  | entry :: rest =>
    match entry.isCheckPoint with
    | some (max_commit_ts, catalog_path) => ([], some (max_commit_ts, catalog_path, entry.commit_ts), rest)
    | none =>
      let (collected, found, remaining) := replayPhase1 rest
      (entry :: collected, found, remaining)

/-- Phase 2 of ReplayWalFile (lines 446-461): keep collecting older entries
while their commit_ts exceeds max_commit_ts; stop at the first entry at or
below it. -/
def replayPhase2 (max_commit_ts : Nat) : List WalEntry → List WalEntry
  | [] => []
  | entry :: rest =>
    if entry.commit_ts > max_commit_ts then entry :: replayPhase2 max_commit_ts rest
    else []

/-- Phase 3 of ReplayWalFile (lines 481-490): walk the reversed replay entries
in ascending order, raising an unrecoverable error when an entry has commit_ts
below max_commit_ts, and tracking system_start_ts as the commit_ts of the last
replayed entry (the first argument threads its current value). The catalog
mutations each entry dispatches to are modelled separately by the replay
handlers below. -/
def replayPhase3 (max_commit_ts : Nat) : Nat → List WalEntry → Except WalError Nat
  | system_start_ts, [] => Except.ok system_start_ts
  | _, entry :: rest =>
    if entry.commit_ts < max_commit_ts then Except.error WalError.commitTsBelowMax
    else replayPhase3 max_commit_ts entry.commit_ts rest

/-- Outcome of ReplayWalFile: either a fresh empty catalog was initialized
(no WAL file present) or recovery replayed up to system_start_ts. -/
inductive ReplayOutcome where
  | newCatalog
  | recovered (system_start_ts : Nat)
deriving DecidableEq

/-- The i64 value ReplayWalFile returns for each outcome: 0 after initializing
a new catalog, otherwise the final system_start_ts. -/
def ReplayOutcome.ret : ReplayOutcome → Nat
  | ReplayOutcome.newCatalog => 0
  | ReplayOutcome.recovered system_start_ts => system_start_ts

/-- WalManager::ReplayWalFile. wal_list is the discovered WAL files newest
first (the active wal.log first, then rolled files sorted by max_commit_ts
descending), each given as the entry stream the WalListIterator yields for it;
parse_catalog_ok models whether CatalogFile::ParseValidCheckpointFilenames
succeeds for the recorded catalog path and max_commit_ts (both helpers live
outside the studied sources). An empty wal_list initializes a new catalog and
returns 0; otherwise phase 1 and phase 2 gather the replay entries, a zero
system_start_ts (no checkpoint found) is an unrecoverable error, and phase 3
replays the gathered entries in reverse collection order. -/
def ReplayWalFile (parse_catalog_ok : String → Nat → Bool) (wal_list : List (List WalEntry)) :
    Except WalError ReplayOutcome :=
  if wal_list.isEmpty then
    Except.ok ReplayOutcome.newCatalog
  else
    let stream := wal_list.flatten
    let (collected, found, remaining) := replayPhase1 stream
    let max_commit_ts := (found.map (fun p => p.1)).getD 0
    let catalog_path := (found.map (fun p => p.2.1)).getD ""
    let system_start_ts := (found.map (fun p => p.2.2)).getD 0
    let replay_entries := collected ++ replayPhase2 max_commit_ts remaining
    if system_start_ts = 0 then
      Except.error WalError.noCheckpointFound
    else if !parse_catalog_ok catalog_path max_commit_ts then
      Except.error WalError.catalogParseFailed
    else
      match replayPhase3 max_commit_ts system_start_ts replay_entries.reverse with
      | Except.error e => Except.error e
      | Except.ok ts => Except.ok (ReplayOutcome.recovered ts)

/-! ## Segment reconstruction during replay
(WalManager::ReplaySegment, WalCmdImportReplay, WalCmdCompactReplay,
lines 668-749) -/

/-- Segment statuses of the catalog. -/
inductive SegmentStatus where
  | kUnsealed
  | kSealed
  | kCompacting
  | kNoDelete
  | kDeprecated
deriving DecidableEq

/-- A block column entry as reconstructed by
BlockColumnEntry::NewReplayBlockColumnEntry from the recorded outline info. -/
structure BlockColumnEntry where
  column_id : Nat
  next_outline_idx : Nat
  last_chunk_offset : Nat
  commit_ts : Nat
deriving DecidableEq

/-- A block entry as reconstructed by BlockEntry::NewReplayBlockEntry. -/
structure BlockEntry where
  block_id : Nat
  row_count : Nat
  row_capacity : Nat
  min_row_ts : Nat
  max_row_ts : Nat
  commit_ts : Nat
  checkpoint_ts : Nat
  checkpoint_row_count : Nat
  columns : List BlockColumnEntry
deriving DecidableEq

/-- A segment entry with the fields SegmentEntry::NewReplaySegmentEntry
receives, in the argument order of the call site. -/
structure SegmentEntry where
  segment_id : Nat
  status : SegmentStatus
  column_count : Nat
  row_count : Nat
  actual_row_count : Nat
  row_capacity : Nat
  min_row_ts : Nat
  max_row_ts : Nat
  commit_ts : Nat
  deprecate_ts : Nat
  begin_ts : Nat
  txn_id : Nat
  blocks : List BlockEntry
deriving DecidableEq

/-- The inner column loop of ReplaySegment (lines 696-700): for column_id
counting up from its initial value, recreate one BlockColumnEntry per recorded
outline info (next_index, last_offset) at the replayed commit timestamp. -/
def mkReplayColumns (commit_ts : Nat) (column_id : Nat) :
    List (Nat × Nat) → List BlockColumnEntry
  | [] => []
  | outline_info :: rest =>
    { column_id := column_id
      next_outline_idx := outline_info.1
      last_chunk_offset := outline_info.2
      commit_ts := commit_ts } :: mkReplayColumns commit_ts (column_id + 1) rest

/-- The block loop of ReplaySegment (lines 684-702): for block_id counting up
from its initial value, recreate one BlockEntry per recorded BlockInfo with
min_row_ts, max_row_ts, commit_ts and checkpoint_ts all the replayed commit
timestamp, checkpoint_row_count the recorded row count, and its columns from
the recorded outline infos. -/
def mkReplayBlocks (commit_ts : Nat) (block_id : Nat) : List BlockInfo → List BlockEntry
  | [] => []
  | block_info :: rest =>
    { block_id := block_id
      row_count := block_info.row_count
      row_capacity := block_info.row_capacity
      min_row_ts := commit_ts
      max_row_ts := commit_ts
      commit_ts := commit_ts
      checkpoint_ts := commit_ts
      checkpoint_row_count := block_info.row_count
      columns := mkReplayColumns commit_ts 0 block_info.outline_infos } ::
    mkReplayBlocks commit_ts (block_id + 1) rest

/-- WalManager::ReplaySegment (lines 668-704): rebuild one segment from a
recorded WalSegmentInfo with status kSealed, min_row_ts, max_row_ts and
commit_ts all equal to the commit timestamp of the replayed entry,
deprecate_ts left UNCOMMIT_TS, begin_ts 0, and its blocks and block columns
recreated from the recorded row counts and outline offsets. -/
def ReplaySegment (segment_info : WalSegmentInfo) (txn_id : Nat) (commit_ts : Nat) : SegmentEntry :=
  { segment_id := segment_info.segment_id
    status := SegmentStatus.kSealed
    column_count := segment_info.column_count
    row_count := segment_info.row_count
    actual_row_count := segment_info.actual_row_count
    row_capacity := segment_info.row_capacity
    min_row_ts := commit_ts
    max_row_ts := commit_ts
    commit_ts := commit_ts
    deprecate_ts := UNCOMMIT_TS
    begin_ts := 0
    txn_id := txn_id
    blocks := mkReplayBlocks commit_ts 0 segment_info.block_infos }

/-- WalManager::WalCmdImportReplay (lines 706-714): rebuild the recorded
segment and add it to the table (TableEntry::AddSegmentReplayWalImport).
The table is modelled as its segment list. -/
def WalCmdImportReplay (segment_info : WalSegmentInfo) (txn_id : Nat) (commit_ts : Nat)
    (table : List SegmentEntry) : List SegmentEntry :=
  table ++ [ReplaySegment segment_info txn_id commit_ts]

/-- SegmentEntry::TrySetCompacting. Modelled from the spec: a compaction "must
observe the precondition status ∈ Sealed on deprecated segments; otherwise,
the operation is fatal" (segment_entry.cpp is outside the studied sources). -/
def SegmentEntry.TrySetCompacting (s : SegmentEntry) : Option SegmentEntry :=
  if s.status = SegmentStatus.kSealed then
    some { s with status := SegmentStatus.kCompacting }
  else
    none

/-- SegmentEntry::SetNoDelete. Modelled from the spec: transition out of
compaction once no deletion is pending (segment_entry.cpp is outside the
studied sources). -/
def SegmentEntry.SetNoDelete (s : SegmentEntry) : SegmentEntry :=
  { s with status := SegmentStatus.kNoDelete }

/-- SegmentEntry::SetDeprecated. Modelled from the spec: compaction "marks
deprecated segments by setting deprecate_ts = commit_ts and moving them into
status Deprecated" (segment_entry.cpp is outside the studied sources). -/
def SegmentEntry.SetDeprecated (s : SegmentEntry) (commit_ts : Nat) : SegmentEntry :=
  { s with status := SegmentStatus.kDeprecated, deprecate_ts := commit_ts }

/-- The deprecation step of WalCmdCompactReplay for one segment id
(lines 741-748): locate the segment, check it is compactable (unrecoverable
error otherwise), then SetNoDelete and SetDeprecated at the commit
timestamp. A missing segment is likewise fatal. -/
def deprecateSegment (commit_ts : Nat) (segment_id : Nat) :
    List SegmentEntry → Except WalError (List SegmentEntry)
  | [] => Except.error (WalError.replayNotCompactable segment_id)
  | s :: rest =>
    if s.segment_id = segment_id then
      match s.TrySetCompacting with
      | none => Except.error (WalError.replayNotCompactable segment_id)
      | some sc => Except.ok ((sc.SetNoDelete).SetDeprecated commit_ts :: rest)
    else
      match deprecateSegment commit_ts segment_id rest with
      | Except.error e => Except.error e
      | Except.ok rest1 => Except.ok (s :: rest1)

/-- WalManager::WalCmdCompactReplay (lines 730-749): rebuild every recorded new
segment via ReplaySegment and add it to the table, then deprecate every
recorded old segment id. -/
def WalCmdCompactReplay (new_segment_infos : List WalSegmentInfo)
    (deprecated_segment_ids : List Nat) (txn_id : Nat) (commit_ts : Nat)
    (table : List SegmentEntry) : Except WalError (List SegmentEntry) :=
  let table1 := new_segment_infos.foldl
    (fun t new_segment_info => t ++ [ReplaySegment new_segment_info txn_id commit_ts]) table
  deprecated_segment_ids.foldlM (fun t segment_id => deprecateSegment commit_ts segment_id t) table1

/-! ## Checkpointing (WalManager::CheckpointInner, lines 268-318) -/

/-- Outcome of the txn->Checkpoint call inside the try block: it can report
success, decline (return false, an early return of CheckpointInner), throw a
RecoverableException (caught and logged, after which control still reaches the
code below the try block), or throw an UnrecoverableException (rethrown). -/
inductive TxnCheckpointOutcome where
  | success
  | declined
  | recoverableFailure
  | unrecoverableFailure
deriving DecidableEq

/-- The WAL manager fields CheckpointInner touches, plus the rolled WAL log
files and the catalog files, each represented by its max_commit_ts label. -/
structure CheckpointState where
  last_ckp_ts : Nat
  last_full_ckp_ts : Nat
  last_ckp_wal_size : Nat
  wal_files : List Nat
  catalog_files : List Nat
deriving DecidableEq

/-- Modelled from the spec: WalFile::RecycleWalFile (the log_file module is
outside the studied sources) recycles obsolete log files, "those with
max_commit_ts ≤ new_ckp_ts". -/
def RecycleWalFile (max_commit_ts : Nat) (wal_files : List Nat) : List Nat :=
  wal_files.filter (fun ts => decide (max_commit_ts < ts))

/-- Modelled from the spec: CatalogFile::RecycleCatalogFile (the log_file
module is outside the studied sources) recycles obsolete catalog files, "those
with max_commit_ts ≤ new_ckp_ts". -/
def RecycleCatalogFile (max_commit_ts : Nat) (catalog_files : List Nat) : List Nat :=
  catalog_files.filter (fun ts => decide (max_commit_ts < ts))

/-- The tail of CheckpointInner below the try block (lines 311-317): update
last_ckp_ts and recycle obsolete WAL files unconditionally; for a full
checkpoint additionally update last_full_ckp_ts and recycle obsolete catalog
files. -/
def finishCheckpoint (is_full_checkpoint : Bool) (max_commit_ts : Nat)
    (st : CheckpointState) : CheckpointState :=
  let st1 := { st with last_ckp_ts := max_commit_ts,
                       wal_files := RecycleWalFile max_commit_ts st.wal_files }
  if is_full_checkpoint then
    { st1 with last_full_ckp_ts := max_commit_ts,
               catalog_files := RecycleCatalogFile max_commit_ts st1.catalog_files }
  else
    st1

/-- The try block of CheckpointInner (lines 292-310) followed by its tail:
a declined checkpoint returns early with nothing updated; success stores
wal_size into last_ckp_wal_size and then runs the tail; a recoverable failure
is only logged, so the tail still runs but last_ckp_wal_size is not stored; an
unrecoverable failure is rethrown. -/
def checkpointBody (is_full_checkpoint : Bool) (ckp : TxnCheckpointOutcome)
    (max_commit_ts : Nat) (wal_size : Nat) (st : CheckpointState) :
    Except WalError CheckpointState :=
  match ckp with
  | TxnCheckpointOutcome.declined => Except.ok st
  | TxnCheckpointOutcome.unrecoverableFailure => Except.error WalError.checkpointFailed
  | TxnCheckpointOutcome.success =>
    Except.ok (finishCheckpoint is_full_checkpoint max_commit_ts
      { st with last_ckp_wal_size := wal_size })
  | TxnCheckpointOutcome.recoverableFailure =>
    Except.ok (finishCheckpoint is_full_checkpoint max_commit_ts st)

/-- WalManager::CheckpointInner (lines 268-318). The guards: a full checkpoint
whose max_commit_ts equals last_full_ckp_ts is skipped; a last_full_ckp_ts at
or above max_commit_ts (when set) or a last_ckp_ts strictly above
max_commit_ts (when set) is an unrecoverable error. A delta checkpoint whose
max_commit_ts equals last_ckp_ts is skipped; a last_ckp_ts at or above
max_commit_ts is an unrecoverable error. -/
def CheckpointInner (is_full_checkpoint : Bool) (ckp : TxnCheckpointOutcome)
    (max_commit_ts : Nat) (wal_size : Nat) (st : CheckpointState) :
    Except WalError CheckpointState :=
  if is_full_checkpoint then
    if max_commit_ts = st.last_full_ckp_ts then
      Except.ok st
    else if st.last_full_ckp_ts ≠ UNCOMMIT_TS ∧ max_commit_ts ≤ st.last_full_ckp_ts then
      Except.error (WalError.lastFullCkpTsNotLess st.last_full_ckp_ts max_commit_ts)
    else if st.last_ckp_ts ≠ UNCOMMIT_TS ∧ max_commit_ts < st.last_ckp_ts then
      Except.error (WalError.lastCkpTsNotLess st.last_ckp_ts max_commit_ts)
    else
      checkpointBody true ckp max_commit_ts wal_size st
  else
    if max_commit_ts = st.last_ckp_ts then
      Except.ok st
    else if max_commit_ts ≤ st.last_ckp_ts then
      Except.error (WalError.lastCkpTsNotLess st.last_ckp_ts max_commit_ts)
    else
      checkpointBody false ckp max_commit_ts wal_size st

/-! ## Full-text column index reader (ColumnIndexReader::Open) -/

/-- Sentinel row id INVALID_ROWID appended at the end of base_row_ids_. -/
def INVALID_ROWID : Nat := 2 ^ 64 - 1

/-- The in-memory indexer of a segment index entry, as far as Open consults it:
its document count, base name and base row id. -/
structure MemoryIndexer where
  doc_count : Nat
  base_name : String
  base_row_id : Nat
deriving DecidableEq

/-- The result of SegmentIndexEntry::GetFullTextIndexSnapshot. Modelled from
the spec: "an on-disk posting set (a list of (base_name, base_row_id)) plus an
optional in-memory indexer accumulating recent rows" (segment_index_entry.cpp
is outside the studied sources; the source returns the pair list as two
parallel vectors base_names and base_row_ids). -/
structure SegmentIndexSnapshot where
  base_pairs : List (String × Nat)
  memory_indexer : Option MemoryIndexer
deriving DecidableEq

/-- A segment reader constructed by Open: a DiskIndexSegmentReader per on-disk
posting base, or an InMemIndexSegmentReader over a non-empty in-memory
indexer. -/
inductive IndexSegmentReader where
  | disk (index_dir : String) (base_name : String) (base_row_id : Nat) (flag : Nat)
  | inMem (memory_indexer : MemoryIndexer)
deriving DecidableEq

/-- The fields of ColumnIndexReader that Open fills. -/
structure ColumnIndexReader where
  flag : Nat
  index_dir : String
  segment_readers : List IndexSegmentReader
  base_names : List String
  base_row_ids : List Nat
deriving DecidableEq

/-- The loop body of ColumnIndexReader::Open (lines 49-67 of its source file)
over the segments of the map, in iteration order: per segment append one disk
reader, base name and base row id per on-disk posting base, then, when the
segment has an in-memory indexer with a non-zero document count, one in-memory
reader with its base name and base row id. -/
def openLoop (flag : Nat) (index_dir : String) :
    List (Nat × SegmentIndexSnapshot) → ColumnIndexReader → ColumnIndexReader
  | [], acc => acc
  | (_, snapshot) :: rest, acc =>
    let acc1 : ColumnIndexReader :=
      { acc with
        segment_readers := acc.segment_readers ++ snapshot.base_pairs.map (fun p =>
          IndexSegmentReader.disk index_dir p.1 p.2 flag)
        base_names := acc.base_names ++ snapshot.base_pairs.map (fun p => p.1)
        base_row_ids := acc.base_row_ids ++ snapshot.base_pairs.map (fun p => p.2) }
    let acc2 : ColumnIndexReader :=
      match snapshot.memory_indexer with
      | some memory_indexer =>
        if memory_indexer.doc_count ≠ 0 then
          { acc1 with
            segment_readers := acc1.segment_readers ++ [IndexSegmentReader.inMem memory_indexer]
            base_names := acc1.base_names ++ [memory_indexer.base_name]
            base_row_ids := acc1.base_row_ids ++ [memory_indexer.base_row_id] }
        else
          acc1
      | none => acc1
    openLoop flag index_dir rest acc2

/-- ColumnIndexReader::Open (lines 44-70 of its source file): run the segment
loop starting from empty vectors, then put an INVALID_ROWID at the end of
base_row_ids_. index_by_segment is given as the association list of the
std map, whose iteration order is ascending segment id. -/
def ColumnIndexReader.Open (flag : Nat) (index_dir : String)
    (index_by_segment : List (Nat × SegmentIndexSnapshot)) : ColumnIndexReader :=
  let r := openLoop flag index_dir index_by_segment
    { flag := flag, index_dir := index_dir, segment_readers := [],
      base_names := [], base_row_ids := [] }
  { r with base_row_ids := r.base_row_ids ++ [INVALID_ROWID] }

/-- The base names a single segment contributes, per the Open loop body. -/
def segmentNameContrib (snapshot : SegmentIndexSnapshot) : List String :=
  snapshot.base_pairs.map (fun p => p.1) ++
    (match snapshot.memory_indexer with
     | some memory_indexer =>
       if memory_indexer.doc_count ≠ 0 then [memory_indexer.base_name] else []
     | none => [])

/-- The base row ids a single segment contributes, per the Open loop body. -/
def segmentRowIdContrib (snapshot : SegmentIndexSnapshot) : List Nat :=
  snapshot.base_pairs.map (fun p => p.2) ++
    (match snapshot.memory_indexer with
     | some memory_indexer =>
       if memory_indexer.doc_count ≠ 0 then [memory_indexer.base_row_id] else []
     | none => [])

/-! ## Table index reader cache (TableIndexReaderCache::GetIndexReader) -/

/-- Association list lookup, the model of find on the flat hash maps and on
std map. -/
def alookup {κ α : Type} [DecidableEq κ] (k : κ) : List (κ × α) → Option α
  | [] => none
  | (k1, v) :: rest => if k1 = k then some v else alookup k rest

/-- Association list update-or-append, the model of map assignment. -/
def aset {κ α : Type} [DecidableEq κ] (k : κ) (v : α) : List (κ × α) → List (κ × α)
  | [] => [(k, v)]
  | (k1, v1) :: rest => if k1 = k then (k1, v) :: rest else (k1, v1) :: aset k v rest

/-- A column index reader handle as the cache sees it: either one freshly built
by ColumnIndexReader::Open on a snapshot (identified by the Open arguments), or
the invalid handle standing for the out-of-range access that the source at()
call would raise when the two cache maps disagree. -/
inductive ColumnIndexReaderRef where
  | built (flag : Nat) (index_dir : String) (index_by_segment : List (Nat × SegmentIndexSnapshot))
  | invalid
deriving DecidableEq

/-- What the slow path of GetIndexReader reads from one table index meta, in
iteration order of the index meta map: whether GetEntryNolock resolved the
entry, whether the index is full-text, the column it targets, the current
full_text_segment_update_ts, the analyzer, and the Open arguments for a fresh
build. -/
structure TableIndexInfo where
  index_name : String
  entry_found : Bool
  is_fulltext : Bool
  column_name : String
  column_id : Nat
  segment_update_ts : Nat
  analyzer : String
  flag : Nat
  index_dir : String
  index_by_segment : List (Nat × SegmentIndexSnapshot)
deriving DecidableEq

/-- The mutex-guarded fields of TableIndexReaderCache. -/
structure TableIndexReaderCacheState where
  first_known_update_ts : Nat
  last_known_update_ts : Nat
  cache_ts : Nat
  cache_column_ts : List (Nat × Nat)
  cache_column_readers : List (Nat × ColumnIndexReaderRef)
  column2analyzer : List (String × String)
deriving DecidableEq

/-- The two maps an IndexReader carries out of GetIndexReader. -/
structure IndexReaderResult where
  column_index_readers : List (Nat × ColumnIndexReaderRef)
  column2analyzer : List (String × String)
deriving DecidableEq

/-- Accumulator of the slow-path build loop: the local cache_column_ts map and
the two result maps. -/
structure BuildAcc where
  cache_column_ts : List (Nat × Nat)
  readers : List (Nat × ColumnIndexReaderRef)
  analyzers : List (String × String)
deriving DecidableEq

/-- The slow-path loop of GetIndexReader (lines 142-176 of its source file):
a missing index entry raises a RecoverableError; non-full-text indexes are
skipped; otherwise the flat-hash-map index operator default-inserts 0 for an
unseen column, and when the stored timestamp is below the current
full_text_segment_update_ts the maps are updated, reusing the cached per-column
reader exactly when the cached column timestamp equals the current one and
building a fresh ColumnIndexReader otherwise. -/
def buildLoop (st : TableIndexReaderCacheState) :
    List TableIndexInfo → BuildAcc → Except WalError BuildAcc
  | [], acc => Except.ok acc
  | info :: rest, acc =>
    if !info.entry_found then
      Except.error WalError.recoverable
    else if !info.is_fulltext then
      buildLoop st rest acc
    else
      let ts := info.segment_update_ts
      let cts :=
        if (alookup info.column_id acc.cache_column_ts).isSome then acc.cache_column_ts
        else acc.cache_column_ts ++ [(info.column_id, 0)]
      let target_ts := (alookup info.column_id cts).getD 0
      if target_ts < ts then
        let readers1 :=
          match alookup info.column_id st.cache_column_ts with
          | some cached_ts =>
            if cached_ts = ts then
              aset info.column_id
                ((alookup info.column_id st.cache_column_readers).getD ColumnIndexReaderRef.invalid)
                acc.readers
            else
              aset info.column_id
                (ColumnIndexReaderRef.built info.flag info.index_dir info.index_by_segment)
                acc.readers
          | none =>
            aset info.column_id
              (ColumnIndexReaderRef.built info.flag info.index_dir info.index_by_segment)
              acc.readers
        buildLoop st rest
          { cache_column_ts := aset info.column_id ts cts
            readers := readers1
            analyzers := aset info.column_name info.analyzer acc.analyzers }
      else
        buildLoop st rest { acc with cache_column_ts := cts }

/-- TableIndexReaderCache::GetIndexReader (lines 130-188 of its source file).
Fast path when cache_ts ≤ begin_ts < first_known_update_ts: share the two
cached maps, state untouched. Otherwise rebuild the maps with the slow-path
loop and, when begin_ts ≥ last_known_update_ts, adopt the freshly built maps
as the new cache, set cache_ts to the old last_known_update_ts, and reset the
update window to (max, 0). The table is given as the iteration order of its
index meta map. -/
def GetIndexReader (st : TableIndexReaderCacheState) (txn_id : Nat) (begin_ts : Nat)
    (indexes : List TableIndexInfo) :
    Except WalError (IndexReaderResult × TableIndexReaderCacheState) :=
  let _ := txn_id
  if st.cache_ts ≤ begin_ts ∧ begin_ts < st.first_known_update_ts then
    Except.ok ({ column_index_readers := st.cache_column_readers,
                 column2analyzer := st.column2analyzer }, st)
  else
    match buildLoop st indexes { cache_column_ts := [], readers := [], analyzers := [] } with
    | Except.error e => Except.error e
    | Except.ok acc =>
      if st.last_known_update_ts ≤ begin_ts then
        Except.ok ({ column_index_readers := acc.readers, column2analyzer := acc.analyzers },
          { first_known_update_ts := UNCOMMIT_TS
            last_known_update_ts := 0
            cache_ts := st.last_known_update_ts
            cache_column_ts := acc.cache_column_ts
            cache_column_readers := acc.readers
            column2analyzer := acc.analyzers })
      else
        Except.ok ({ column_index_readers := acc.readers, column2analyzer := acc.analyzers }, st)

/-! ## Theorems -/

/-- Every branch of the flush-policy switch performs the flush in the source. -/
theorem policyFlushEvents_eq_sync (flush_option : FlushOption) :
    policyFlushEvents flush_option = [FlushEvent.sync] := by
  cases flush_option <;> rfl

/-- Claim C1: for every WalEntry processed by the WAL flush loop, the
pre-computed serialized size (GetSizeInBytes) is verified against the byte
count actually produced by WriteAdv; on a mismatch an unrecoverable error is
raised and nothing reaches the log file, and the bytes of the entry are
appended to the active log file exactly when the write step succeeds, which
forces the two sizes to be equal. -/
theorem wal_flush_size_verified (st : FlushState) (entry : WalEntry) :
    (entry.size_in_bytes ≠ entry.serialized.length →
      ∃ err, writeWalEntry st entry = Except.error err) ∧
    (∀ st1, writeWalEntry st entry = Except.ok st1 →
      entry.size_in_bytes = entry.serialized.length ∧
      st1.file = st.file ++ entry.serialized) := by
  constructor
  · intro hne
    unfold writeWalEntry
    split
    · exact ⟨_, rfl⟩
    · rw [if_pos hne]
      exact ⟨_, rfl⟩
  · intro st1 h
    by_cases hc : entry.cmds.isEmpty
    · simp [writeWalEntry, hc] at h
    · by_cases hne : entry.size_in_bytes = entry.serialized.length
      · refine ⟨hne, ?_⟩
        simp [writeWalEntry, hc, hne] at h
        rw [← h]
      · simp [writeWalEntry, hc, hne] at h

/-- Witness for C1: a concrete entry whose pre-computed size 3 differs from
its 2 serialized bytes is rejected, and a concrete matching entry has its
bytes appended to the log file. -/
theorem wal_flush_size_verified_witness :
    (∃ err, writeWalEntry ⟨[], 0, 0⟩ ⟨1, 5, [WalCmd.dropDatabase "db"], 3, [1, 2]⟩ =
      Except.error err) ∧
    (FlushState.mk [7, 8] 6 2).file = ([] : List Nat) ++ [7, 8] := by
  constructor
  · exact (wal_flush_size_verified ⟨[], 0, 0⟩ ⟨1, 5, [WalCmd.dropDatabase "db"], 3, [1, 2]⟩).1
      (by decide)
  · exact ((wal_flush_size_verified ⟨[], 0, 0⟩ ⟨2, 6, [WalCmd.dropDatabase "db"], 2, [7, 8]⟩).2
      ⟨[7, 8], 6, 2⟩ rfl).2

/-- Claim C9: WalManager::PutEntry with the manager not running returns
without error and leaves the queue untouched, so the entry is silently
discarded and the caller gets no failure indication. -/
theorem put_entry_dropped_when_not_running (queue : List (WalEntry × Nat)) (entry : WalEntry)
    (txn : Nat) :
    PutEntry false queue entry txn = Except.ok queue := rfl

/-- Claim C7 (code bug evaluated at the failing input): under the OnlyWrite
policy a successfully written batch still triggers the flush, so the batch
trace contains a sync event; the source carries a FIXME comment at the
kOnlyWrite branch admitting it should not flush. -/
theorem only_write_still_flushes :
    flushBatch (fun _ => true) FlushOption.kOnlyWrite ⟨[], 0, 0⟩
        [some ⟨1, 5, [WalCmd.dropDatabase "db"], 2, [7, 8]⟩] =
      Except.ok (⟨[7, 8], 5, 2⟩,
        [FlushEvent.write 1, FlushEvent.sync, FlushEvent.commitBottom 1], true) ∧
    FlushEvent.sync ∈ [FlushEvent.write 1, FlushEvent.sync, FlushEvent.commitBottom 1] := by
  constructor
  · rfl
  · decide

/-- Counterexample to C6 as stated: a delta checkpoint whose max_commit_ts 5
equals last_ckp_ts 5 returns with no error and no state change; the equality
case is a silent skip, not an unrecoverable error. -/
theorem delta_equal_ts_is_skip_counterexample :
    CheckpointInner false TxnCheckpointOutcome.success 5 0 ⟨5, 1, 0, [], []⟩ =
      Except.ok ⟨5, 1, 0, [], []⟩ ∧
    CheckpointInner false TxnCheckpointOutcome.success 5 0 ⟨5, 1, 0, [], []⟩ ≠
      Except.error (WalError.lastCkpTsNotLess 5 5) := by
  refine ⟨rfl, ?_⟩
  intro h
  rw [show CheckpointInner false TxnCheckpointOutcome.success 5 0 ⟨5, 1, 0, [], []⟩ =
    Except.ok ⟨5, 1, 0, [], []⟩ from rfl] at h
  exact Except.noConfusion h

/-- Claim C6 (amended): for a delta checkpoint, a target max_commit_ts
strictly below last_ckp_ts raises an unrecoverable error; a target equal to
last_ckp_ts is silently skipped with no state change. -/
theorem delta_checkpoint_stale_ts (ckp : TxnCheckpointOutcome) (max_commit_ts wal_size : Nat)
    (st : CheckpointState) :
    (max_commit_ts = st.last_ckp_ts →
      CheckpointInner false ckp max_commit_ts wal_size st = Except.ok st) ∧
    (max_commit_ts < st.last_ckp_ts →
      CheckpointInner false ckp max_commit_ts wal_size st =
        Except.error (WalError.lastCkpTsNotLess st.last_ckp_ts max_commit_ts)) := by
  constructor
  · intro heq
    simp [CheckpointInner, heq]
  · intro hlt
    have hne : max_commit_ts ≠ st.last_ckp_ts := Nat.ne_of_lt hlt
    simp [CheckpointInner, hne, Nat.le_of_lt hlt]

/-- Witness for C6 (amended): a delta checkpoint at max_commit_ts 3 against
last_ckp_ts 7 aborts; one at 7 against 7 is skipped. -/
theorem delta_checkpoint_stale_ts_witness :
    CheckpointInner false TxnCheckpointOutcome.success 3 0 ⟨7, 1, 0, [], []⟩ =
      Except.error (WalError.lastCkpTsNotLess 7 3) ∧
    CheckpointInner false TxnCheckpointOutcome.success 7 0 ⟨7, 1, 0, [], []⟩ =
      Except.ok ⟨7, 1, 0, [], []⟩ := by
  constructor
  · exact (delta_checkpoint_stale_ts TxnCheckpointOutcome.success 3 0 ⟨7, 1, 0, [], []⟩).2
      (by decide)
  · exact (delta_checkpoint_stale_ts TxnCheckpointOutcome.success 7 0 ⟨7, 1, 0, [], []⟩).1
      (by decide)

/-- Counterexample to C5 as stated: a successful delta checkpoint at
max_commit_ts 10 over a state holding the rolled WAL file labelled 5 removes
that file, so a delta checkpoint does not leave the set of WAL log files
unchanged. -/
theorem delta_recycles_wal_counterexample :
    CheckpointInner false TxnCheckpointOutcome.success 10 42 ⟨3, 1, 0, [5], [7]⟩ =
      Except.ok ⟨10, 1, 42, [], [7]⟩ ∧
    (CheckpointState.mk 10 1 42 [] [7]).wal_files ≠
      (CheckpointState.mk 3 1 0 [5] [7]).wal_files := by
  constructor
  · rfl
  · decide

/-- Claim C5 (amended): on a successful non-skipped checkpoint, last_ckp_ts
and last_ckp_wal_size are updated and obsolete WAL log files (max_commit_ts
at or below the new checkpoint timestamp) are recycled by delta and full
checkpoints alike; only full checkpoints additionally update last_full_ckp_ts
and recycle obsolete catalog files, so a delta checkpoint leaves the catalog
files and last_full_ckp_ts unchanged. -/
theorem checkpoint_success_updates (is_full_checkpoint : Bool) (max_commit_ts wal_size : Nat)
    (st : CheckpointState)
    (hfull : is_full_checkpoint = true →
      max_commit_ts ≠ st.last_full_ckp_ts ∧
      ¬(st.last_full_ckp_ts ≠ UNCOMMIT_TS ∧ max_commit_ts ≤ st.last_full_ckp_ts) ∧
      ¬(st.last_ckp_ts ≠ UNCOMMIT_TS ∧ max_commit_ts < st.last_ckp_ts))
    (hdelta : is_full_checkpoint = false → st.last_ckp_ts < max_commit_ts) :
    ∃ st1,
      CheckpointInner is_full_checkpoint TxnCheckpointOutcome.success max_commit_ts wal_size st =
        Except.ok st1 ∧
      st1.last_ckp_ts = max_commit_ts ∧
      st1.last_ckp_wal_size = wal_size ∧
      st1.wal_files = RecycleWalFile max_commit_ts st.wal_files ∧
      (is_full_checkpoint = true →
        st1.last_full_ckp_ts = max_commit_ts ∧
        st1.catalog_files = RecycleCatalogFile max_commit_ts st.catalog_files) ∧
      (is_full_checkpoint = false →
        st1.last_full_ckp_ts = st.last_full_ckp_ts ∧
        st1.catalog_files = st.catalog_files) := by
  cases is_full_checkpoint with
  | false =>
    have hlt := hdelta rfl
    have hne : max_commit_ts ≠ st.last_ckp_ts := Nat.ne_of_gt hlt
    have hnle : ¬ max_commit_ts ≤ st.last_ckp_ts := Nat.not_le_of_lt hlt
    refine ⟨finishCheckpoint false max_commit_ts { st with last_ckp_wal_size := wal_size },
      ?_, ?_, ?_, ?_, ?_, ?_⟩
    · simp [CheckpointInner, hne, hnle, checkpointBody]
    · simp [finishCheckpoint]
    · simp [finishCheckpoint]
    · simp [finishCheckpoint]
    · intro h; exact absurd h (by simp)
    · intro _; exact ⟨by simp [finishCheckpoint], by simp [finishCheckpoint]⟩
  | true =>
    obtain ⟨h1, h2, h3⟩ := hfull rfl
    have h1s : ¬ max_commit_ts = st.last_full_ckp_ts := h1
    refine ⟨finishCheckpoint true max_commit_ts { st with last_ckp_wal_size := wal_size },
      ?_, ?_, ?_, ?_, ?_, ?_⟩
    · simp [CheckpointInner, h1s, h2, h3, checkpointBody]
    · simp [finishCheckpoint]
    · simp [finishCheckpoint]
    · simp [finishCheckpoint]
    · intro _; exact ⟨by simp [finishCheckpoint], by simp [finishCheckpoint]⟩
    · intro h; exact absurd h (by simp)

/-- Witness for C5 (amended): the concrete delta checkpoint of the
counterexample satisfies the amended description. -/
theorem checkpoint_success_updates_witness :
    ∃ st1,
      CheckpointInner false TxnCheckpointOutcome.success 10 42 ⟨3, 1, 0, [5], [7]⟩ =
        Except.ok st1 ∧
      st1.last_ckp_ts = 10 ∧
      st1.last_ckp_wal_size = 42 ∧
      st1.wal_files = RecycleWalFile 10 (CheckpointState.mk 3 1 0 [5] [7]).wal_files ∧
      (false = true →
        st1.last_full_ckp_ts = 10 ∧
        st1.catalog_files = RecycleCatalogFile 10 (CheckpointState.mk 3 1 0 [5] [7]).catalog_files) ∧
      (false = false →
        st1.last_full_ckp_ts = (CheckpointState.mk 3 1 0 [5] [7]).last_full_ckp_ts ∧
        st1.catalog_files = (CheckpointState.mk 3 1 0 [5] [7]).catalog_files) :=
  checkpoint_success_updates false 10 42 ⟨3, 1, 0, [5], [7]⟩
    (fun h => nomatch h) (fun _ => by decide)

/-- A sentinel-free batch that the write loop accepts is fully written: the
running flag stays true and the events are exactly the write events of the
batch in order. -/
theorem writeLoop_map_some (batch : List WalEntry) :
    ∀ (st st1 : FlushState) (evs : List FlushEvent) (running : Bool),
      writeLoop st (batch.map some) = Except.ok (st1, evs, running) →
      running = true ∧ evs = batch.map (fun e => FlushEvent.write e.txn_id) := by
  induction batch with
  | nil =>
    intro st st1 evs running h
    simp only [List.map_nil, writeLoop, Except.ok.injEq, Prod.mk.injEq] at h
    exact ⟨h.2.2.symm, h.2.1.symm⟩
  | cons entry rest ih =>
    intro st st1 evs running h
    simp only [List.map_cons, writeLoop] at h
    cases hw : writeWalEntry st entry with
    | error e => rw [hw] at h; exact absurd h (by simp)
    | ok st2 =>
      rw [hw] at h
      dsimp only at h
      cases hl : writeLoop st2 (rest.map some) with
      | error e => rw [hl] at h; exact absurd h (by simp)
      | ok p =>
        obtain ⟨st3, evs2, r⟩ := p
        rw [hl] at h
        dsimp only at h
        simp only [Except.ok.injEq, Prod.mk.injEq] at h
        obtain ⟨-, hevs, hr⟩ := h
        obtain ⟨hr1, hevs1⟩ := ih st2 st3 evs2 r hl
        subst hevs hr
        simp [hr1, hevs1]

/-- The sequential commit loop on a sentinel-free batch produces the commit
events of the resolvable transactions in batch order. -/
theorem commitLoop_map_some (has_txn : Nat → Bool) (batch : List WalEntry) :
    commitLoop has_txn (batch.map some) =
      (batch.filter (fun e => has_txn e.txn_id)).map
        (fun e => FlushEvent.commitBottom e.txn_id) := by
  induction batch with
  | nil => rfl
  | cons entry rest ih =>
    by_cases h : has_txn entry.txn_id <;>
      simp [commitLoop, List.filter_cons, h, ih]

/-- Claim C2: for a nonempty sentinel-free batch accepted by the flush round,
the event trace is exactly the write events of all entries in batch order,
then the single flush of the batch, then the commit-bottom events of the
resolvable transactions, again in batch order; hence every commit_bottom runs
strictly after the durable write and flush of every entry of the batch, and
finalization order equals WAL write order. -/
theorem commit_bottom_after_durable_write (has_txn : Nat → Bool) (flush_option : FlushOption)
    (st st1 : FlushState) (batch : List WalEntry) (events : List FlushEvent) (running : Bool)
    (hne : batch ≠ [])
    (h : flushBatch has_txn flush_option st (batch.map some) = Except.ok (st1, events, running)) :
    events = batch.map (fun e => FlushEvent.write e.txn_id) ++ [FlushEvent.sync] ++
      (batch.filter (fun e => has_txn e.txn_id)).map
        (fun e => FlushEvent.commitBottom e.txn_id) := by
  unfold flushBatch at h
  have hbe : (batch.map some).isEmpty = false := by
    cases batch with
    | nil => exact absurd rfl hne
    | cons a l => rfl
  rw [hbe] at h
  simp only [Bool.false_eq_true, if_false] at h
  cases hw : writeLoop st (batch.map some) with
  | error e => rw [hw] at h; exact absurd h (by simp)
  | ok p =>
    obtain ⟨st2, evs, r⟩ := p
    rw [hw] at h
    obtain ⟨hr, hevs⟩ := writeLoop_map_some batch st st2 evs r hw
    subst hr
    simp only [if_true] at h
    simp only [Except.ok.injEq, Prod.mk.injEq] at h
    obtain ⟨-, hev, -⟩ := h
    rw [← hev, hevs, policyFlushEvents_eq_sync, commitLoop_map_some]

/-- Witness for C2: a one-entry batch yields the trace write, sync,
commit-bottom. -/
theorem commit_bottom_after_durable_write_witness :
    ([FlushEvent.write 1, FlushEvent.sync, FlushEvent.commitBottom 1] : List FlushEvent) =
      ([⟨1, 5, [WalCmd.dropDatabase "db"], 2, [7, 8]⟩] : List WalEntry).map
          (fun e => FlushEvent.write e.txn_id) ++ [FlushEvent.sync] ++
        (([⟨1, 5, [WalCmd.dropDatabase "db"], 2, [7, 8]⟩] : List WalEntry).filter
            (fun e => (fun _ => true) e.txn_id)).map
          (fun e => FlushEvent.commitBottom e.txn_id) :=
  commit_bottom_after_durable_write (fun _ => true) FlushOption.kFlushAtOnce
    ⟨[], 0, 0⟩ ⟨[7, 8], 5, 2⟩ [⟨1, 5, [WalCmd.dropDatabase "db"], 2, [7, 8]⟩]
    [FlushEvent.write 1, FlushEvent.sync, FlushEvent.commitBottom 1] true
    (by simp) rfl

/-- A stream with no checkpoint entry is collected whole by phase 1, finding
nothing. -/
theorem replayPhase1_no_checkpoint (stream : List WalEntry)
    (h : ∀ e ∈ stream, e.isCheckPoint = none) :
    replayPhase1 stream = (stream, none, []) := by
  induction stream with
  | nil => rfl
  | cons entry rest ih =>
    simp [replayPhase1, h entry (by simp),
      ih (fun x hx => h x (List.mem_cons_of_mem entry hx))]

/-- Claim C3: ReplayWalFile with no WAL file initializes a new empty catalog
and returns 0; with WAL files present but no entry holding a Checkpoint
command anywhere in the newest-to-oldest scan, it raises the unrecoverable
missing-checkpoint error. -/
theorem replay_checkpoint_requirements (parse_catalog_ok : String → Nat → Bool)
    (wal_list : List (List WalEntry)) :
    (wal_list = [] →
      ReplayWalFile parse_catalog_ok wal_list = Except.ok ReplayOutcome.newCatalog ∧
      ReplayOutcome.ret ReplayOutcome.newCatalog = 0) ∧
    (wal_list ≠ [] → (∀ e ∈ wal_list.flatten, e.isCheckPoint = none) →
      ReplayWalFile parse_catalog_ok wal_list = Except.error WalError.noCheckpointFound) := by
  constructor
  · rintro rfl
    exact ⟨rfl, rfl⟩
  · intro hne hnock
    unfold ReplayWalFile
    have hbe : wal_list.isEmpty = false := by
      cases wal_list with
      | nil => exact absurd rfl hne
      | cons a l => rfl
    rw [hbe]
    simp only [Bool.false_eq_true, if_false]
    rw [replayPhase1_no_checkpoint _ hnock]
    simp

/-- Witness for C3: the empty WAL directory initializes a new catalog; a
single WAL file holding one checkpoint-free entry is fatal. -/
theorem replay_checkpoint_requirements_witness :
    ReplayWalFile (fun _ _ => true) [] = Except.ok ReplayOutcome.newCatalog ∧
    ReplayWalFile (fun _ _ => true) [[⟨1, 5, [WalCmd.dropDatabase "db"], 2, [7, 8]⟩]] =
      Except.error WalError.noCheckpointFound := by
  constructor
  · exact ((replay_checkpoint_requirements (fun _ _ => true) []).1 rfl).1
  · exact (replay_checkpoint_requirements (fun _ _ => true)
      [[⟨1, 5, [WalCmd.dropDatabase "db"], 2, [7, 8]⟩]]).2 (by simp) (by decide)

/-- The column loop yields one entry per recorded outline info. -/
theorem mkReplayColumns_length (commit_ts : Nat) (outline_infos : List (Nat × Nat)) :
    ∀ k, (mkReplayColumns commit_ts k outline_infos).length = outline_infos.length := by
  induction outline_infos with
  | nil => intro k; rfl
  | cons outline_info rest ih => intro k; simp [mkReplayColumns, ih]

/-- Pointwise description of the column loop: entry i carries column id
start + i and the components of outline info i. -/
theorem mkReplayColumns_get (commit_ts : Nat) (outline_infos : List (Nat × Nat)) :
    ∀ (k i : Nat) (hi : i < outline_infos.length)
      (hc : i < (mkReplayColumns commit_ts k outline_infos).length),
      (mkReplayColumns commit_ts k outline_infos).get ⟨i, hc⟩ =
        { column_id := k + i
          next_outline_idx := (outline_infos.get ⟨i, hi⟩).1
          last_chunk_offset := (outline_infos.get ⟨i, hi⟩).2
          commit_ts := commit_ts } := by
  induction outline_infos with
  | nil => intro k i hi hc; exact absurd hi (by simp)
  | cons outline_info rest ih =>
    intro k i hi hc
    cases i with
    | zero => simp [mkReplayColumns]
    | succ n =>
      have hn : n < rest.length := by simpa using hi
      have hcn : n < (mkReplayColumns commit_ts (k + 1) rest).length := by
        simpa [mkReplayColumns_length] using hn
      have hstep := ih (k + 1) n hn hcn
      simp only [mkReplayColumns, List.get_cons_succ]
      rw [hstep]
      congr 1
      omega

/-- The block loop yields one entry per recorded block info. -/
theorem mkReplayBlocks_length (commit_ts : Nat) (block_infos : List BlockInfo) :
    ∀ k, (mkReplayBlocks commit_ts k block_infos).length = block_infos.length := by
  induction block_infos with
  | nil => intro k; rfl
  | cons block_info rest ih => intro k; simp [mkReplayBlocks, ih]

/-- Pointwise description of the block loop: entry i carries block id
start + i, the row counts and capacity of block info i, all timestamps the
replayed commit timestamp, and columns rebuilt from the outline infos of
block info i. -/
theorem mkReplayBlocks_get (commit_ts : Nat) (block_infos : List BlockInfo) :
    ∀ (k i : Nat) (hi : i < block_infos.length)
      (hb : i < (mkReplayBlocks commit_ts k block_infos).length),
      (mkReplayBlocks commit_ts k block_infos).get ⟨i, hb⟩ =
        { block_id := k + i
          row_count := (block_infos.get ⟨i, hi⟩).row_count
          row_capacity := (block_infos.get ⟨i, hi⟩).row_capacity
          min_row_ts := commit_ts
          max_row_ts := commit_ts
          commit_ts := commit_ts
          checkpoint_ts := commit_ts
          checkpoint_row_count := (block_infos.get ⟨i, hi⟩).row_count
          columns := mkReplayColumns commit_ts 0 (block_infos.get ⟨i, hi⟩).outline_infos } := by
  induction block_infos with
  | nil => intro k i hi hb; exact absurd hi (by simp)
  | cons block_info rest ih =>
    intro k i hi hb
    cases i with
    | zero => simp [mkReplayBlocks]
    | succ n =>
      have hn : n < rest.length := by simpa using hi
      have hbn : n < (mkReplayBlocks commit_ts (k + 1) rest).length := by
        simpa [mkReplayBlocks_length] using hn
      have hstep := ih (k + 1) n hn hbn
      simp only [mkReplayBlocks, List.get_cons_succ]
      rw [hstep]
      congr 1
      omega

/-- Appending rebuilt segments one by one equals appending the mapped list. -/
theorem foldl_append_replay (txn_id commit_ts : Nat) :
    ∀ (new_segment_infos : List WalSegmentInfo) (table : List SegmentEntry),
      new_segment_infos.foldl
          (fun t new_segment_info => t ++ [ReplaySegment new_segment_info txn_id commit_ts])
          table =
        table ++ new_segment_infos.map
          (fun new_segment_info => ReplaySegment new_segment_info txn_id commit_ts) := by
  intro new_segment_infos
  induction new_segment_infos with
  | nil => intro table; simp
  | cons info rest ih => intro table; simp [List.foldl_cons, ih]

/-- Claim C4: every segment rebuilt by replaying an Import or Compact command
at commit timestamp commit_ts has status kSealed, min_row_ts, max_row_ts and
commit_ts all equal to commit_ts, deprecate_ts left UNCOMMIT_TS, and its
blocks and block columns recreated from the recorded row counts and outline
offsets; WalCmdImportReplay adds exactly the rebuilt segment and
WalCmdCompactReplay adds exactly the rebuilt new segments. -/
theorem replay_segment_reconstruction (txn_id commit_ts : Nat) (segment_info : WalSegmentInfo) :
    (ReplaySegment segment_info txn_id commit_ts).status = SegmentStatus.kSealed ∧
    (ReplaySegment segment_info txn_id commit_ts).min_row_ts = commit_ts ∧
    (ReplaySegment segment_info txn_id commit_ts).max_row_ts = commit_ts ∧
    (ReplaySegment segment_info txn_id commit_ts).commit_ts = commit_ts ∧
    (ReplaySegment segment_info txn_id commit_ts).deprecate_ts = UNCOMMIT_TS ∧
    (ReplaySegment segment_info txn_id commit_ts).blocks.length =
      segment_info.block_infos.length ∧
    (∀ (i : Nat) (hi : i < segment_info.block_infos.length)
        (hb : i < (ReplaySegment segment_info txn_id commit_ts).blocks.length),
      (ReplaySegment segment_info txn_id commit_ts).blocks.get ⟨i, hb⟩ =
        { block_id := i
          row_count := (segment_info.block_infos.get ⟨i, hi⟩).row_count
          row_capacity := (segment_info.block_infos.get ⟨i, hi⟩).row_capacity
          min_row_ts := commit_ts
          max_row_ts := commit_ts
          commit_ts := commit_ts
          checkpoint_ts := commit_ts
          checkpoint_row_count := (segment_info.block_infos.get ⟨i, hi⟩).row_count
          columns :=
            mkReplayColumns commit_ts 0 (segment_info.block_infos.get ⟨i, hi⟩).outline_infos }) ∧
    (∀ (outline_infos : List (Nat × Nat)) (j : Nat) (hj : j < outline_infos.length)
        (hc : j < (mkReplayColumns commit_ts 0 outline_infos).length),
      (mkReplayColumns commit_ts 0 outline_infos).get ⟨j, hc⟩ =
        { column_id := j
          next_outline_idx := (outline_infos.get ⟨j, hj⟩).1
          last_chunk_offset := (outline_infos.get ⟨j, hj⟩).2
          commit_ts := commit_ts }) ∧
    (∀ table, WalCmdImportReplay segment_info txn_id commit_ts table =
      table ++ [ReplaySegment segment_info txn_id commit_ts]) ∧
    (∀ (new_segment_infos : List WalSegmentInfo) (table : List SegmentEntry),
      WalCmdCompactReplay new_segment_infos [] txn_id commit_ts table =
        Except.ok (table ++ new_segment_infos.map
          (fun new_segment_info => ReplaySegment new_segment_info txn_id commit_ts))) := by
  refine ⟨rfl, rfl, rfl, rfl, rfl, ?_, ?_, ?_, fun table => rfl, ?_⟩
  · exact mkReplayBlocks_length commit_ts segment_info.block_infos 0
  · intro i hi hb
    have h := mkReplayBlocks_get commit_ts segment_info.block_infos 0 i hi hb
    simpa using h
  · intro outline_infos j hj hc
    have h := mkReplayColumns_get commit_ts outline_infos 0 j hj hc
    simpa using h
  · intro new_segment_infos table
    unfold WalCmdCompactReplay
    rw [foldl_append_replay]
    rfl

/-- Witness for C4: a one-block, one-column segment info replayed at txn 7 and
commit timestamp 9. -/
theorem replay_segment_reconstruction_witness :
    (ReplaySegment ⟨2, 1, 4, 4, 8, [⟨4, 8, [(3, 16)]⟩]⟩ 7 9).status = SegmentStatus.kSealed ∧
    (ReplaySegment ⟨2, 1, 4, 4, 8, [⟨4, 8, [(3, 16)]⟩]⟩ 7 9).deprecate_ts = UNCOMMIT_TS ∧
    (ReplaySegment ⟨2, 1, 4, 4, 8, [⟨4, 8, [(3, 16)]⟩]⟩ 7 9).blocks.get ⟨0, by decide⟩ =
      { block_id := 0
        row_count := 4
        row_capacity := 8
        min_row_ts := 9
        max_row_ts := 9
        commit_ts := 9
        checkpoint_ts := 9
        checkpoint_row_count := 4
        columns := mkReplayColumns 9 0 [(3, 16)] } ∧
    WalCmdImportReplay ⟨2, 1, 4, 4, 8, [⟨4, 8, [(3, 16)]⟩]⟩ 7 9 [] =
      [] ++ [ReplaySegment ⟨2, 1, 4, 4, 8, [⟨4, 8, [(3, 16)]⟩]⟩ 7 9] := by
  have h := replay_segment_reconstruction 7 9 ⟨2, 1, 4, 4, 8, [⟨4, 8, [(3, 16)]⟩]⟩
  refine ⟨h.1, h.2.2.2.2.1, ?_, h.2.2.2.2.2.2.2.2.1 []⟩
  have hg := h.2.2.2.2.2.2.1 0 (by decide) (by decide)
  simpa using hg

/-- Claim C8: GetIndexReader returns the shared cached maps with no rebuild
and no state change on the fast path cache_ts ≤ begin_ts <
first_known_update_ts; otherwise it returns the maps rebuilt by the slow-path
loop, and exactly when begin_ts ≥ last_known_update_ts the freshly built maps
become the new cache with cache_ts set to the old last_known_update_ts and
the update window reset to (max, 0), while for begin_ts <
last_known_update_ts the cache state is left unchanged. -/
theorem index_reader_cache_paths (st : TableIndexReaderCacheState) (txn_id begin_ts : Nat)
    (indexes : List TableIndexInfo) :
    (st.cache_ts ≤ begin_ts → begin_ts < st.first_known_update_ts →
      GetIndexReader st txn_id begin_ts indexes =
        Except.ok ({ column_index_readers := st.cache_column_readers,
                     column2analyzer := st.column2analyzer }, st)) ∧
    (¬(st.cache_ts ≤ begin_ts ∧ begin_ts < st.first_known_update_ts) →
      ∀ acc, buildLoop st indexes { cache_column_ts := [], readers := [], analyzers := [] } =
          Except.ok acc →
        (st.last_known_update_ts ≤ begin_ts →
          GetIndexReader st txn_id begin_ts indexes =
            Except.ok ({ column_index_readers := acc.readers, column2analyzer := acc.analyzers },
              { first_known_update_ts := UNCOMMIT_TS
                last_known_update_ts := 0
                cache_ts := st.last_known_update_ts
                cache_column_ts := acc.cache_column_ts
                cache_column_readers := acc.readers
                column2analyzer := acc.analyzers })) ∧
        (begin_ts < st.last_known_update_ts →
          GetIndexReader st txn_id begin_ts indexes =
            Except.ok ({ column_index_readers := acc.readers,
                         column2analyzer := acc.analyzers }, st))) := by
  constructor
  · intro h1 h2
    simp [GetIndexReader, h1, h2]
  · intro hn acc hacc
    constructor
    · intro hle
      simp [GetIndexReader, hn, hacc, hle]
    · intro hlt
      simp [GetIndexReader, hn, hacc, Nat.not_le_of_lt hlt]

/-- Witness for C8: a fast-path call at begin_ts 10 over a cache with
cache_ts 5 and window start 20 shares the cached maps; a slow-path call over
an empty cache with one full-text index at update timestamp 9 rebuilds and
adopts the maps, resetting the window. -/
theorem index_reader_cache_paths_witness :
    GetIndexReader ⟨20, 0, 5, [], [(3, ColumnIndexReaderRef.built 1 "dir" [])], [("text", "std")]⟩
        1 10 [] =
      Except.ok
        ({ column_index_readers := [(3, ColumnIndexReaderRef.built 1 "dir" [])],
           column2analyzer := [("text", "std")] },
         ⟨20, 0, 5, [], [(3, ColumnIndexReaderRef.built 1 "dir" [])], [("text", "std")]⟩) ∧
    GetIndexReader ⟨0, 0, 0, [], [], []⟩ 1 10
        [⟨"idx", true, true, "text", 3, 9, "std", 1, "dir", []⟩] =
      Except.ok
        ({ column_index_readers := [(3, ColumnIndexReaderRef.built 1 "dir" [])],
           column2analyzer := [("text", "std")] },
         ⟨UNCOMMIT_TS, 0, 0, [(3, 9)], [(3, ColumnIndexReaderRef.built 1 "dir" [])],
          [("text", "std")]⟩) := by
  constructor
  · exact (index_reader_cache_paths
      ⟨20, 0, 5, [], [(3, ColumnIndexReaderRef.built 1 "dir" [])], [("text", "std")]⟩
      1 10 []).1 (by decide) (by decide)
  · exact ((index_reader_cache_paths ⟨0, 0, 0, [], [], []⟩ 1 10
      [⟨"idx", true, true, "text", 3, 9, "std", 1, "dir", []⟩]).2 (by decide)
      ⟨[(3, 9)], [(3, ColumnIndexReaderRef.built 1 "dir" [])], [("text", "std")]⟩ rfl).1
      (by decide)

/-- The per-segment contributions to base_row_ids_ and base_names_ have equal
length. -/
theorem segmentContrib_length (snapshot : SegmentIndexSnapshot) :
    (segmentRowIdContrib snapshot).length = (segmentNameContrib snapshot).length := by
  cases hm : snapshot.memory_indexer with
  | none => simp [segmentRowIdContrib, segmentNameContrib, hm]
  | some m =>
    by_cases hd : m.doc_count = 0 <;>
      simp [segmentRowIdContrib, segmentNameContrib, hm, hd]

/-- The Open loop appends exactly the per-segment contributions, in input
order, to base_names_ and base_row_ids_. -/
theorem openLoop_spec (flag : Nat) (index_dir : String) :
    ∀ (input : List (Nat × SegmentIndexSnapshot)) (acc : ColumnIndexReader),
      (openLoop flag index_dir input acc).base_names =
        acc.base_names ++ (input.map (fun p => segmentNameContrib p.2)).flatten ∧
      (openLoop flag index_dir input acc).base_row_ids =
        acc.base_row_ids ++ (input.map (fun p => segmentRowIdContrib p.2)).flatten := by
  intro input
  induction input with
  | nil => intro acc; simp [openLoop]
  | cons p rest ih =>
    intro acc
    obtain ⟨sid, snapshot⟩ := p
    cases hm : snapshot.memory_indexer with
    | none =>
      simp only [openLoop, hm]
      constructor
      · rw [(ih _).1]
        simp [segmentNameContrib, hm, List.append_assoc]
      · rw [(ih _).2]
        simp [segmentRowIdContrib, hm, List.append_assoc]
    | some m =>
      by_cases hd : m.doc_count = 0
      · simp only [openLoop, hm]
        rw [if_neg (not_not_intro hd)]
        constructor
        · rw [(ih _).1]
          simp [segmentNameContrib, hm, hd, List.append_assoc]
        · rw [(ih _).2]
          simp [segmentRowIdContrib, hm, hd, List.append_assoc]
      · simp only [openLoop, hm]
        rw [if_pos hd]
        constructor
        · rw [(ih _).1]
          simp [segmentNameContrib, hm, hd, List.append_assoc]
        · rw [(ih _).2]
          simp [segmentRowIdContrib, hm, hd, List.append_assoc]

/-- The flattened row-id contributions and name contributions have equal
length over any input. -/
theorem flatten_contrib_length (input : List (Nat × SegmentIndexSnapshot)) :
    ((input.map (fun p => segmentRowIdContrib p.2)).flatten).length =
      ((input.map (fun p => segmentNameContrib p.2)).flatten).length := by
  induction input with
  | nil => rfl
  | cons p rest ih =>
    simp [segmentContrib_length, ih]

/-- Claim C10: after ColumnIndexReader::Open, base_row_ids_ holds exactly one
more element than base_names_, its final element is the INVALID_ROWID
sentinel, and for every input segment map (the empty map included) the
non-sentinel elements are the per-segment contributions in the ascending
segment-id iteration order of the input map, parallel to base_names_. -/
theorem open_base_row_ids_invariant (flag : Nat) (index_dir : String)
    (index_by_segment : List (Nat × SegmentIndexSnapshot)) :
    (ColumnIndexReader.Open flag index_dir index_by_segment).base_row_ids.length =
      (ColumnIndexReader.Open flag index_dir index_by_segment).base_names.length + 1 ∧
    (ColumnIndexReader.Open flag index_dir index_by_segment).base_row_ids.getLast? =
      some INVALID_ROWID ∧
    (ColumnIndexReader.Open flag index_dir index_by_segment).base_row_ids =
      (index_by_segment.map (fun p => segmentRowIdContrib p.2)).flatten ++ [INVALID_ROWID] ∧
    (ColumnIndexReader.Open flag index_dir index_by_segment).base_names =
      (index_by_segment.map (fun p => segmentNameContrib p.2)).flatten := by
  obtain ⟨h1, h2⟩ := openLoop_spec flag index_dir index_by_segment
    { flag := flag, index_dir := index_dir, segment_readers := [],
      base_names := [], base_row_ids := [] }
  have hnames : (ColumnIndexReader.Open flag index_dir index_by_segment).base_names =
      (index_by_segment.map (fun p => segmentNameContrib p.2)).flatten := by
    simp only [ColumnIndexReader.Open]
    rw [h1]
    simp
  have hids : (ColumnIndexReader.Open flag index_dir index_by_segment).base_row_ids =
      (index_by_segment.map (fun p => segmentRowIdContrib p.2)).flatten ++ [INVALID_ROWID] := by
    simp only [ColumnIndexReader.Open]
    rw [h2]
    simp
  refine ⟨?_, ?_, hids, hnames⟩
  · rw [hids, hnames]
    simp [flatten_contrib_length index_by_segment]
  · rw [hids]
    exact List.getLast?_concat _

end Infinity
